import Mathlib

/-!
# Verification of the Mvola callback-correlation bridge (`src/mvola_api.py`)

This file is a shallow embedding of the Python source `src/mvola_api.py` into
Lean 4, used to settle the specification claims about the pending-callback
registry, the callback receiver (`mvola_callback`) and the transaction
orchestrator (`create_mvola_transaction`).

Modelling conventions:
* JSON documents are modelled by the inductive type `JVal`; Python `dict`s
  become ordered association lists (keys are unique in every payload that the
  program itself constructs, and lookup takes the first match, as in CPython).
* `request.get_json()` is modelled as an `Option JVal` input (`none` = the
  request carried no JSON document).  JSON parsing itself is assumed to
  succeed; transport-level parsing is outside the embedding.
* Python exceptions raised inside the handlers (`AttributeError` on `.get` of
  a non-dict, `TypeError` on iterating a non-iterable or hashing an
  unhashable dict key, `.lower()`/`.upper()` on a non-string) are modelled
  with `Except Unit`; the enclosing `try/except` blocks convert them to the
  500 responses exactly where the source catches them.  File-system logging
  (always performed by the source) is effect-free here and assumed not to
  raise.
* Python `str.lower`/`str.upper` are modelled on the ASCII fragment
  (`pyLower`/`pyUpper`); all status keywords handled by the program are ASCII.
* The module-level dict `pending_callbacks` is the `Registry`: an association
  list from the (arbitrary JSON) correlation-id value to a `Slot`, whose
  `event` flag models the `threading.Event` (`False` = not set).  A
  `threading.Event` is never cleared by the program, and `Event.wait(t)`
  returns `True` exactly when the flag was set before the wait gave up, so
  the wait outcome is the flag's value after all concurrently-delivered
  callbacks have run (`waitDelivered`).
* Outbound HTTP calls are oracles provided through `Env`: the `requests.post`
  outcome for transaction creation, and the `requests.get` outcomes inside
  `check_transaction_status` / `get_transaction_details`.  Callbacks that the
  gateway delivers concurrently are two lists of request bodies: those that
  arrive while the creation request is in flight and those that arrive during
  the 20 s wait window; each is processed by `mvola_callback` in arrival
  order (CPython serialises the handlers' dict operations).
-/

/-- A JSON value, as produced by `request.get_json()`.  `num` covers the
integral numbers the program manipulates. -/
inductive JVal where
  | null : JVal
  | bool : Bool → JVal
  | num : Int → JVal
  | str : String → JVal
  | arr : List JVal → JVal
  | obj : List (String × JVal) → JVal

mutual

/-- Structural (deep) equality test on JSON values, as Python `==`. -/
def JVal.decEq : (a b : JVal) → Decidable (a = b)
  | .null, .null => isTrue rfl
  | .null, .bool _ => isFalse (fun h => JVal.noConfusion h)
  | .null, .num _ => isFalse (fun h => JVal.noConfusion h)
  | .null, .str _ => isFalse (fun h => JVal.noConfusion h)
  | .null, .arr _ => isFalse (fun h => JVal.noConfusion h)
  | .null, .obj _ => isFalse (fun h => JVal.noConfusion h)
  | .bool _, .null => isFalse (fun h => JVal.noConfusion h)
  | .bool a, .bool b =>
    if h : a = b then isTrue (h ▸ rfl)
    else isFalse (fun hh => h (JVal.bool.inj hh))
  | .bool _, .num _ => isFalse (fun h => JVal.noConfusion h)
  | .bool _, .str _ => isFalse (fun h => JVal.noConfusion h)
  | .bool _, .arr _ => isFalse (fun h => JVal.noConfusion h)
  | .bool _, .obj _ => isFalse (fun h => JVal.noConfusion h)
  | .num _, .null => isFalse (fun h => JVal.noConfusion h)
  | .num _, .bool _ => isFalse (fun h => JVal.noConfusion h)
  | .num a, .num b =>
    if h : a = b then isTrue (h ▸ rfl)
    else isFalse (fun hh => h (JVal.num.inj hh))
  | .num _, .str _ => isFalse (fun h => JVal.noConfusion h)
  | .num _, .arr _ => isFalse (fun h => JVal.noConfusion h)
  | .num _, .obj _ => isFalse (fun h => JVal.noConfusion h)
  | .str _, .null => isFalse (fun h => JVal.noConfusion h)
  | .str _, .bool _ => isFalse (fun h => JVal.noConfusion h)
  | .str _, .num _ => isFalse (fun h => JVal.noConfusion h)
  | .str a, .str b =>
    if h : a = b then isTrue (h ▸ rfl)
    else isFalse (fun hh => h (JVal.str.inj hh))
  | .str _, .arr _ => isFalse (fun h => JVal.noConfusion h)
  | .str _, .obj _ => isFalse (fun h => JVal.noConfusion h)
  | .arr _, .null => isFalse (fun h => JVal.noConfusion h)
  | .arr _, .bool _ => isFalse (fun h => JVal.noConfusion h)
  | .arr _, .num _ => isFalse (fun h => JVal.noConfusion h)
  | .arr _, .str _ => isFalse (fun h => JVal.noConfusion h)
  | .arr a, .arr b =>
    match JVal.decEqList a b with
    | isTrue h => isTrue (h ▸ rfl)
    | isFalse h => isFalse (fun hh => h (JVal.arr.inj hh))
  | .arr _, .obj _ => isFalse (fun h => JVal.noConfusion h)
  | .obj _, .null => isFalse (fun h => JVal.noConfusion h)
  | .obj _, .bool _ => isFalse (fun h => JVal.noConfusion h)
  | .obj _, .num _ => isFalse (fun h => JVal.noConfusion h)
  | .obj _, .str _ => isFalse (fun h => JVal.noConfusion h)
  | .obj _, .arr _ => isFalse (fun h => JVal.noConfusion h)
  | .obj a, .obj b =>
    match JVal.decEqPairs a b with
    | isTrue h => isTrue (h ▸ rfl)
    | isFalse h => isFalse (fun hh => h (JVal.obj.inj hh))
termination_by structural a => a

def JVal.decEqList : (a b : List JVal) → Decidable (a = b)
  | [], [] => isTrue rfl
  | [], _ :: _ => isFalse (fun h => List.noConfusion h)
  | _ :: _, [] => isFalse (fun h => List.noConfusion h)
  | x :: xs, y :: ys =>
    match JVal.decEq x y with
    | isFalse h1 => isFalse (fun h => h1 (List.cons.inj h).1)
    | isTrue h1 =>
      match JVal.decEqList xs ys with
      | isTrue h2 => isTrue (by rw [h1, h2])
      | isFalse h2 => isFalse (fun h => h2 (List.cons.inj h).2)
termination_by structural a => a

def JVal.decEqPairs : (a b : List (String × JVal)) → Decidable (a = b)
  | [], [] => isTrue rfl
  | [], _ :: _ => isFalse (fun h => List.noConfusion h)
  | _ :: _, [] => isFalse (fun h => List.noConfusion h)
  | (k1, v1) :: xs, (k2, v2) :: ys =>
    if hk : k1 = k2 then
      match JVal.decEq v1 v2 with
      | isFalse h1 => isFalse (by
          intro h
          simp only [List.cons.injEq, Prod.mk.injEq] at h
          exact h1 h.1.2)
      | isTrue h1 =>
        match JVal.decEqPairs xs ys with
        | isTrue h2 => isTrue (by rw [hk, h1, h2])
        | isFalse h2 => isFalse (fun h => h2 (List.cons.inj h).2)
    else
      isFalse (by
        intro h
        simp only [List.cons.injEq, Prod.mk.injEq] at h
        exact hk h.1.1)
termination_by structural a => a

end

instance : DecidableEq JVal := JVal.decEq

/-- Python truthiness (`if not data:`): `None`, `False`, `0`, `""`, `[]` and
`{}` are falsy. -/
def jTruthy : JVal → Bool
  | .null => false
  | .bool b => b
  | .num n => n != 0
  | .str s => s != ""
  | .arr l => !l.isEmpty
  | .obj l => !l.isEmpty

/-- First-match lookup in an association list, as in a CPython `dict` whose
keys are unique. -/
def jLookup : List (String × JVal) → String → Option JVal
  | [], _ => none
  | (k, v) :: t, q => if k = q then some v else jLookup t q

/-- `d.get(k)` — `AttributeError` (modelled as `.error ()`) unless `d` is a
dict; returns `None` (`none`) when the key is absent. -/
def jGet : JVal → String → Except Unit (Option JVal)
  | .obj l, k => .ok (jLookup l k)
  | _, _ => .error ()

/-- `d.get(k, default)`. -/
def jGetD (d : JVal) (k : String) (dflt : JVal) : Except Unit JVal :=
  match jGet d k with
  | .ok (some v) => .ok v
  | .ok none => .ok dflt
  | .error e => .error e

/-- `d[k]` with a dict default: lookup returning `null` for an absent key
(used where the source calls `.get(k)` with no default on a known dict). -/
def jField (l : List (String × JVal)) (k : String) : JVal :=
  match jLookup l k with
  | some v => v
  | none => JVal.null

/-- `.get(k, default)` on a known dict. -/
def jFieldD (l : List (String × JVal)) (k : String) (dflt : JVal) : JVal :=
  match jLookup l k with
  | some v => v
  | none => dflt

/-- Python iteration `for x in v:` — lists yield elements, strings yield
one-character strings, dicts yield their keys; other values raise
`TypeError`. -/
def pyIter : JVal → Except Unit (List JVal)
  | .arr l => .ok l
  | .str s => .ok (s.data.map (fun c => JVal.str (String.mk [c])))
  | .obj l => .ok (l.map (fun p => JVal.str p.1))
  | _ => .error ()

/-- Only hashable values may be dict keys (`k in d` / `d[k] = v` raise
`TypeError` for a `list`/`dict` key). -/
def pyHashable : JVal → Bool
  | .arr _ => false
  | .obj _ => false
  | _ => true

/-! ## ASCII model of Python `str.lower`/`str.upper` -/

/-- Code-point map of `str.lower` on the ASCII letters. -/
def lowerN (n : Nat) : Nat := if 65 ≤ n ∧ n ≤ 90 then n + 32 else n

/-- Code-point map of `str.upper` on the ASCII letters. -/
def upperN (n : Nat) : Nat := if 97 ≤ n ∧ n ≤ 122 then n - 32 else n

def pyLowerChar (c : Char) : Char := Char.ofNat (lowerN c.toNat)

def pyUpperChar (c : Char) : Char := Char.ofNat (upperN c.toNat)

/-- Model of Python `str.lower` (ASCII fragment). -/
def pyLower (s : String) : String := String.mk (s.data.map pyLowerChar)

/-- Model of Python `str.upper` (ASCII fragment). -/
def pyUpper (s : String) : String := String.mk (s.data.map pyUpperChar)

/-- The status mapping appearing (twice, identically) in the source:
`status_mapping.get(raw.lower(), raw.upper())` with
`{'completed': 'SUCCESS', 'failed': 'FAILED', 'pending': 'PENDING'}`. -/
def mapStatus (raw : String) : String :=
  if pyLower raw = "completed" then "SUCCESS"
  else if pyLower raw = "failed" then "FAILED"
  else if pyLower raw = "pending" then "PENDING"
  else pyUpper raw

/-! ## The pending-callback registry (`pending_callbacks`) -/

/-- One entry of `pending_callbacks`:
`{'status': None, 'data': None, 'event': threading.Event()}`. -/
structure Slot where
  status : Option String
  data : Option JVal
  event : Bool
deriving DecidableEq

def freshSlot : Slot := ⟨none, none, false⟩

/-- `pending_callbacks` — a dict from correlation-id values to slots. -/
abbrev Registry := List (JVal × Slot)

/-- `k in d` / `d[k]` lookup. -/
def rlookup : Registry → JVal → Option Slot
  | [], _ => none
  | p :: t, k => if p.1 = k then some p.2 else rlookup t k

/-- `pending_callbacks[k] = slot` (replace if present, else append). -/
def rinsert : Registry → JVal → Slot → Registry
  | [], k, s => [(k, s)]
  | p :: t, k, s => if p.1 = k then (k, s) :: t else p :: rinsert t k s

/-- `del pending_callbacks[k]`.  A Python dict holds each key at most once;
on such states removing every matching entry is exactly `del`. -/
def rerase : Registry → JVal → Registry
  | [], _ => []
  | p :: t, k => if p.1 = k then rerase t k else p :: rerase t k

/-- The three mutations `mvola_callback` performs on a found slot
(lines 204–206 of the source): set status, set data, set the event. -/
def rupdate : Registry → JVal → String → JVal → Registry
  | [], _, _, _ => []
  | p :: t, k, st, d =>
    (if p.1 = k then (p.1, ⟨some st, some d, true⟩) else p) :: rupdate t k st d

/-! ## The callback receiver (`mvola_callback`, lines 161–232) -/

/-- The `for meta in metadata:` loop (lines 183–186): the correlation id is
the `value` of the first metadata entry whose `key` equals
`'XCorrelationId'`; it stays at the initial `'N/A'` when no entry matches. -/
def extractLoop : List JVal → Except Unit JVal
  | [] => .ok (JVal.str "N/A")
  | m :: rest =>
    match jGet m "key" with
    | .error e => .error e
    | .ok kv =>
      if kv = some (JVal.str "XCorrelationId") then jGetD m "value" (JVal.str "N/A")
      else extractLoop rest

/-- Lines 180–186: `metadata = callback_data.get('metadata', [])` followed by
the extraction loop. -/
def extractCid (d : JVal) : Except Unit JVal :=
  match jGetD d "metadata" (JVal.arr []) with
  | .error e => .error e
  | .ok md =>
    match pyIter md with
    | .error e => .error e
    | .ok l => extractLoop l

/-- The status extraction of lines 191–197:
`callback_data.get('transactionStatus', 'UNKNOWN')` followed by the status
mapping (raises unless the raw value is a string). -/
def extractStatus (d : JVal) : Except Unit String :=
  match jGetD d "transactionStatus" (JVal.str "UNKNOWN") with
  | .error e => .error e
  | .ok (JVal.str ts) => .ok (mapStatus ts)
  | .ok _ => .error ()

/-- `PUT /mvola/callback` (lines 161–232).  Input: the registry and the
parsed JSON body (`none` when the request carried no JSON).  Output: the
registry afterwards and the HTTP status returned to the sender.  The source
always answers 200 once the id and status have been extracted, whether or
not a slot matched; `400` is returned for a missing/falsy body and `500`
when the handler raises. -/
def mvola_callback (r : Registry) (body : Option JVal) : Registry × Nat :=
  match body with
  | none => (r, 400)
  | some d =>
    if !jTruthy d then (r, 400)
    else
      match extractCid d with
      | .error _ => (r, 500)
      | .ok cid =>
        match extractStatus d with
        | .error _ => (r, 500)
        | .ok st =>
          if pyHashable cid then
            match rlookup r cid with
            | some _ => (rupdate r cid st d, 200)
            | none => (r, 200)
          else (r, 500)

/-- State-independent summary of a callback body: `some (cid, status, d)`
exactly when processing the body reaches the `if correlation_id in
pending_callbacks:` test, carrying what would be written to a found slot. -/
def deliverInfo (body : Option JVal) : Option (JVal × String × JVal) :=
  match body with
  | none => none
  | some d =>
    if !jTruthy d then none
    else
      match extractCid d with
      | .error _ => none
      | .ok cid =>
        match extractStatus d with
        | .error _ => none
        | .ok st => if pyHashable cid then some (cid, st, d) else none

/-- The registry transformation a callback body performs, as a function of
its `deliverInfo` summary. -/
def deliverStep (r : Registry) : Option (JVal × String × JVal) → Registry
  | some (k, st, d) =>
    match rlookup r k with
    | some _ => rupdate r k st d
    | none => r
  | none => r

/-- HTTP status of the callback endpoint as a function of the body alone. -/
def callbackHttpCode (body : Option JVal) : Nat :=
  match body with
  | none => 400
  | some d =>
    if !jTruthy d then 400
    else
      match extractCid d with
      | .error _ => 500
      | .ok cid =>
        match extractStatus d with
        | .error _ => 500
        | .ok _ => if pyHashable cid then 200 else 500

/-- Run a list of concurrently-arriving callback requests, in arrival
order. -/
def runCallbacks (r : Registry) : List (Option JVal) → Registry
  | [] => r
  | b :: t => runCallbacks (mvola_callback r b).1 t

/-- `Event.wait` outcome: the event flag of the slot for `k` once the
callbacks of the wait window have run (`false` if no slot exists). -/
def waitDelivered (r : Registry) (k : JVal) : Bool :=
  match rlookup r k with
  | some s => s.event
  | none => false

example : mvola_callback [] none = ([], 400) := by decide
example : mvola_callback [] (some (JVal.obj [])) = ([], 400) := by decide
example : mapStatus "Completed" = "SUCCESS" := by decide
example : mapStatus "success" = "SUCCESS" := by decide
example : mapStatus "weird" = "WEIRD" := by decide

/-! ## The transaction orchestrator (`create_mvola_transaction`, lines 322–600) -/

/-- Outcome of the outbound `requests.post` creating the transaction
(line 426): a response, a timeout, or another transport failure. -/
inductive PostOutcome where
  | resp (code : Nat) (body : JVal)
  | timeout
  | transportErr (msg : String)
deriving DecidableEq

/-- Outcome of an outbound `requests.get` (status check / detail fetch):
a response, or any exception inside the helper's `try`. -/
inductive GetOutcome where
  | resp (code : Nat) (body : JVal)
  | exn
deriving DecidableEq

/-- `check_transaction_status` (lines 234–276): returns the parsed body on
HTTP 200, `None` on any other status or exception. -/
def check_transaction_status : GetOutcome → Option JVal
  | .resp code body => if code = 200 then some body else none
  | .exn => none

/-- `get_transaction_details` (lines 278–320): same shape as the status
check. -/
def get_transaction_details : GetOutcome → Option JVal
  | .resp code body => if code = 200 then some body else none
  | .exn => none

/-- The environment of one orchestrator run: the generated id/date strings
(from `datetime.now()`), the outbound-call outcomes, and the callback
requests that arrive concurrently (while the creation request is in flight,
and during the 20 s wait window). -/
structure Env where
  nowId : String
  nowDate : String
  cbsDuringCreate : List (Option JVal)
  cbsDuringWait : List (Option JVal)
  createResp : PostOutcome
  statusHttp : GetOutcome
  detailsHttp : GetOutcome

/-- Events of one orchestrator run, in program order. -/
inductive Ev where
  | sendCreate
  | register (k : JVal)
  | waitStart
  | removeSlot (k : JVal)
  | statusCheck
  | detailFetch
deriving DecidableEq

/-- Result of one `POST /mvola/transaction` request: HTTP status, response
body, the registry afterwards, and the orchestrator's event trace. -/
structure TxnResult where
  code : Nat
  body : JVal
  registry : Registry
  trace : List Ev
deriving DecidableEq

def errAuthBody : JVal :=
  JVal.obj [("error", JVal.str "Authentication required"),
    ("message", JVal.str "Please provide Bearer token in Authorization header")]

def errNoJsonBody : JVal :=
  JVal.obj [("error", JVal.str "Invalid request"),
    ("message", JVal.str "JSON body required")]

def errMissingBody (missing : List String) : JVal :=
  JVal.obj [("error", JVal.str "Missing required fields"),
    ("message", JVal.str
      ("Les champs suivants sont obligatoires: " ++ String.intercalate ", " missing))]

def timeoutBody : JVal :=
  JVal.obj [("error", JVal.str "Request timeout"),
    ("message", JVal.str "La requête vers Mvola a expiré")]

def reqFailedBody (msg : String) : JVal :=
  JVal.obj [("error", JVal.str "Request failed"), ("message", JVal.str msg)]

/-- Body of the in-handler `except Exception` branch (lines 595–600). -/
def internalBody : JVal :=
  JVal.obj [("error", JVal.str "Internal server error"),
    ("message", JVal.str "Une erreur inattendue s'est produite")]

/-- Body produced by the Flask `errorhandler(500)` (line 610), reached when
code outside the handler's own `try` raises. -/
def flaskInternalBody : JVal :=
  JVal.obj [("error", JVal.str "Internal server error")]

/-- 202 body when the status check could not be performed (lines 569–574). -/
def pendingNoStatusBody (scid xcid : JVal) : JVal :=
  JVal.obj [("status", JVal.str "PENDING"),
    ("message", JVal.str "Transaction en cours de traitement. Impossible de vérifier le statut."),
    ("serverCorrelationId", scid), ("xCorrelationId", xcid)]

/-- 202 body when `objectReference` is not yet available (lines 561–566). -/
def pendingNoOrefBody (scid xcid : JVal) : JVal :=
  JVal.obj [("status", JVal.str "PENDING"),
    ("message", JVal.str "Transaction en cours de traitement. objectReference non encore disponible."),
    ("serverCorrelationId", scid), ("xCorrelationId", xcid)]

/-- 500 body when the detail fetch failed (lines 553–558). -/
def errDetailsBody (scid xcid : JVal) : JVal :=
  JVal.obj [("status", JVal.str "ERROR"),
    ("message", JVal.str "Impossible de récupérer les détails de la transaction"),
    ("serverCorrelationId", scid), ("xCorrelationId", xcid)]

/-- Response document built from a delivered callback (lines 471–482).
`callback_result['status']` may in principle still be `None` (JSON `null`);
accessing `.get` on the stored data raises unless it is a dict. -/
def buildCallbackResponse (xcid : JVal) (s : Slot) : Except Unit JVal :=
  match s.data with
  | some (JVal.obj l) =>
    .ok (JVal.obj [
      ("status", match s.status with | some st => JVal.str st | none => JVal.null),
      ("transactionReference", jField l "transactionReference"),
      ("serverCorrelationId", jField l "serverCorrelationId"),
      ("requestDate", jField l "requestDate"),
      ("debitParty", jFieldD l "debitParty" (JVal.arr [])),
      ("creditParty", jFieldD l "creditParty" (JVal.arr [])),
      ("fees", jFieldD l "fees" (JVal.arr [])),
      ("amount", jField l "amount"),
      ("xCorrelationId", xcid),
      ("source", JVal.str "callback")])
  | _ => .error ()

/-- Response document built from the polled detail record (lines 518–550),
including the status extraction and mapping of lines 522–530. -/
def buildPollingResponse (xcid scid : JVal) (details : JVal) : Except Unit JVal :=
  match details with
  | JVal.obj l =>
    match jFieldD l "transactionStatus" (JVal.str "UNKNOWN") with
    | JVal.str ts =>
      .ok (JVal.obj [
        ("status", JVal.str (mapStatus ts)),
        ("transactionReference", jField l "transactionReference"),
        ("serverCorrelationId", scid),
        ("requestDate", jField l "requestDate"),
        ("creationDate", jField l "creationDate"),
        ("debitParty", jFieldD l "debitParty" (JVal.arr [])),
        ("creditParty", jFieldD l "creditParty" (JVal.arr [])),
        ("fees", jFieldD l "fees" (JVal.arr [])),
        ("amount", jField l "amount"),
        ("currency", jFieldD l "currency" (JVal.str "Ar")),
        ("xCorrelationId", xcid),
        ("source", JVal.str "api_polling")])
    | _ => .error ()
  | _ => .error ()

def requiredFields : List String :=
  ["amount", "clientMsisdn", "partnerMsisdn", "descriptionTransaction", "referenceID", "name"]

/-- Is the first list a prefix of the second? -/
def listPrefixB : List Char → List Char → Bool
  | [], _ => true
  | _ :: _, [] => false
  | a :: as, b :: bs => (a = b) && listPrefixB as bs

/-- Is the first list a contiguous sublist of the second (Python
`sub in s` on strings)? -/
def listInfixB (p : List Char) : List Char → Bool
  | [] => listPrefixB p []
  | b :: t => listPrefixB p (b :: t) || listInfixB p t

/-- Python `f in data` as used by the required-field check (line 353): key
membership for a dict, element membership for a list, substring test for a
string; `TypeError` otherwise. -/
def pyContains (d : JVal) (f : String) : Except Unit Bool :=
  match d with
  | .obj l => .ok (jLookup l f).isSome
  | .arr l => .ok (decide (JVal.str f ∈ l))
  | .str s => .ok (listInfixB f.data s.data)
  | _ => .error ()

/-- `[field for field in required_fields if field not in data]`. -/
def missingFields (d : JVal) : List String → Except Unit (List String)
  | [] => .ok []
  | f :: t =>
    match pyContains d f with
    | .error e => .error e
    | .ok c =>
      match missingFields d t with
      | .error e => .error e
      | .ok rest => .ok (if c then rest else f :: rest)

/-- Outcome of everything before the handler's `try` block (lines 329–419):
either an early error response, an uncaught exception (handled by the Flask
500 error handler), or the validated dict body together with the
correlation id to use. -/
inductive PreOutcome where
  | err (code : Nat) (body : JVal)
  | errOutside
  | ok (dataL : List (String × JVal)) (xcid : JVal)
deriving DecidableEq

/-- Lines 329–419: bearer check, JSON body check, required-field validation,
correlation-id/request-date resolution and payload construction.  All of
this precedes the `try`, so an exception here surfaces through Flask's
`errorhandler(500)`. -/
def create_pre (auth : Option String) (body : Option JVal) (env : Env) : PreOutcome :=
  match auth with
  | none => .err 401 errAuthBody
  | some a =>
    if !listPrefixB "Bearer ".data a.data then .err 401 errAuthBody
    else
      match body with
      | none => .err 400 errNoJsonBody
      | some d =>
        if !jTruthy d then .err 400 errNoJsonBody
        else
          match missingFields d requiredFields with
          | .error _ => .errOutside
          | .ok (f :: t) => .err 400 (errMissingBody (f :: t))
          | .ok [] =>
            match jGetD d "xCorrelationID" (JVal.str env.nowId) with
            | .error _ => .errOutside
            | .ok xcid =>
              match jGetD d "requestDate" (JVal.str env.nowDate) with
              | .error _ => .errOutside
              | .ok _ =>
                match d with
                | JVal.obj l => .ok l xcid
                | _ => .errOutside

/-- The delivered branch (lines 459–484): read the slot (`KeyError` would be
caught as a generic 500), delete it, build the response from the stored
callback payload. -/
def txnDelivered (r3 : Registry) (xcid : JVal) : TxnResult :=
  match rlookup r3 xcid with
  | some s =>
    match buildCallbackResponse xcid s with
    | .ok j => ⟨200, j, rerase r3 xcid, [.register xcid, .waitStart, .removeSlot xcid]⟩
    | .error _ =>
      ⟨500, internalBody, rerase r3 xcid, [.register xcid, .waitStart, .removeSlot xcid]⟩
  | none => ⟨500, internalBody, r3, [.register xcid, .waitStart]⟩

/-- The detail-fetch step (lines 509–558).  Line 518 tests `if details:` by
Python truthiness, so both a failed fetch (`None`) and a falsy fetched body
(`{}`, `[]`, `""`, `0`, `null`) yield the 500 `ERROR` response; a truthy
one yields the mapped polling response. -/
def txnDetails (r4 : Registry) (xcid scid : JVal) (env : Env) : TxnResult :=
  match get_transaction_details env.detailsHttp with
  | none =>
    ⟨500, errDetailsBody scid xcid, r4,
      [.register xcid, .waitStart, .removeSlot xcid, .statusCheck, .detailFetch]⟩
  | some details =>
    if !jTruthy details then
      ⟨500, errDetailsBody scid xcid, r4,
        [.register xcid, .waitStart, .removeSlot xcid, .statusCheck, .detailFetch]⟩
    else
      match buildPollingResponse xcid scid details with
      | .ok j =>
        ⟨200, j, r4,
          [.register xcid, .waitStart, .removeSlot xcid, .statusCheck, .detailFetch]⟩
      | .error _ =>
        ⟨500, internalBody, r4,
          [.register xcid, .waitStart, .removeSlot xcid, .statusCheck, .detailFetch]⟩

/-- The `objectReference` examination (lines 504–566): absent or falsy ⇒
202 `PENDING`; present ⇒ detail fetch. -/
def txnOref (r4 : Registry) (xcid scid : JVal) (env : Env) (st : JVal) : TxnResult :=
  match jGet st "objectReference" with
  | .error _ =>
    ⟨500, internalBody, r4, [.register xcid, .waitStart, .removeSlot xcid, .statusCheck]⟩
  | .ok none =>
    ⟨202, pendingNoOrefBody scid xcid, r4,
      [.register xcid, .waitStart, .removeSlot xcid, .statusCheck]⟩
  | .ok (some oref) =>
    if !jTruthy oref then
      ⟨202, pendingNoOrefBody scid xcid, r4,
        [.register xcid, .waitStart, .removeSlot xcid, .statusCheck]⟩
    else txnDetails r4 xcid scid env

/-- Continuation of the polling fallback once the slot has been removed
(`r4` is the registry after the `if x in: del` of lines 491–492).  Line 503
tests `if status_response:` by Python truthiness, so both a failed status
check (`None`) and a falsy returned body take the 202 "impossible to
verify" branch. -/
def txnPolling4 (r4 : Registry) (xcid scid : JVal) (env : Env) : TxnResult :=
  match check_transaction_status env.statusHttp with
  | none =>
    ⟨202, pendingNoStatusBody scid xcid, r4,
      [.register xcid, .waitStart, .removeSlot xcid, .statusCheck]⟩
  | some st =>
    if !jTruthy st then
      ⟨202, pendingNoStatusBody scid xcid, r4,
        [.register xcid, .waitStart, .removeSlot xcid, .statusCheck]⟩
    else txnOref r4 xcid scid env st

/-- The polling fallback (lines 486–574): remove the slot, then one status
check; failure ⇒ 202 `PENDING`. -/
def txnPolling (r3 : Registry) (xcid scid : JVal) (env : Env) : TxnResult :=
  txnPolling4
    (match rlookup r3 xcid with
      | some _ => rerase r3 xcid
      | none => r3) xcid scid env

/-- Lines 446–574: register the slot (`pending_callbacks[x] = {...}` raises
for an unhashable key), run the wait window, then branch on delivery. -/
def txnRegistered (r1 : Registry) (xcid scid : JVal) (env : Env) : TxnResult :=
  if pyHashable xcid then
    if waitDelivered (runCallbacks (rinsert r1 xcid freshSlot) env.cbsDuringWait) xcid then
      txnDelivered (runCallbacks (rinsert r1 xcid freshSlot) env.cbsDuringWait) xcid
    else
      txnPolling (runCallbacks (rinsert r1 xcid freshSlot) env.cbsDuringWait) xcid scid env
  else ⟨500, internalBody, r1, []⟩

/-- Lines 434–444: parse the accepted response; a missing or falsy
`serverCorrelationId` returns the upstream body verbatim without
registering anything. -/
def txnAccepted (r1 : Registry) (xcid : JVal) (env : Env) (code : Nat) (body : JVal) :
    TxnResult :=
  match jGet body "serverCorrelationId" with
  | .error _ => ⟨500, internalBody, r1, []⟩
  | .ok none => ⟨code, body, r1, []⟩
  | .ok (some scid) =>
    if !jTruthy scid then ⟨code, body, r1, []⟩
    else txnRegistered r1 xcid scid env

/-- The handler's `try` block from the `requests.post` on (lines 421–600),
given the registry as it stands when the upstream response arrives.  The
returned trace lists the events after `sendCreate`.  Exceptions raised
inside the block are converted to the 500 `internalBody` response at the
raise site, exactly as the enclosing `except Exception` does. -/
def txnTry (r1 : Registry) (xcid : JVal) (env : Env) : TxnResult :=
  match env.createResp with
  | .timeout => ⟨504, timeoutBody, r1, []⟩
  | .transportErr m => ⟨500, reqFailedBody m, r1, []⟩
  | .resp code body =>
    if code = 200 ∨ code = 201 ∨ code = 202 then txnAccepted r1 xcid env code body
    else ⟨code, body, r1, []⟩

/-- `POST /mvola/transaction` (lines 322–600): one full orchestrator run.
`r0` is the registry when the request arrives; callbacks that arrive while
the creation request is in flight are applied to it before the upstream
response is examined. -/
def create_mvola_transaction (r0 : Registry) (auth : Option String)
    (body : Option JVal) (env : Env) : TxnResult :=
  match create_pre auth body env with
  | .err c b => ⟨c, b, r0, []⟩
  | .errOutside => ⟨500, flaskInternalBody, r0, []⟩
  | .ok _ xcid =>
    let r1 := runCallbacks r0 env.cbsDuringCreate
    let t := txnTry r1 xcid env
    ⟨t.code, t.body, t.registry, .sendCreate :: t.trace⟩

/-! ### Trace-order checkers -/

/-- `true` iff every `register` event is preceded by a `sendCreate` event. -/
def registerPrecededBySend : Bool → List Ev → Bool
  | _, [] => true
  | _, .sendCreate :: t => registerPrecededBySend true t
  | seen, .register _ :: t => seen && registerPrecededBySend seen t
  | seen, _ :: t => registerPrecededBySend seen t

/-- `true` iff some `sendCreate` event is preceded by a `register` event —
the ordering the specification demands. -/
def sendPrecededByRegister : Bool → List Ev → Bool
  | _, [] => true
  | _, .register _ :: t => sendPrecededByRegister true t
  | seen, .sendCreate :: t => seen && sendPrecededByRegister seen t
  | seen, _ :: t => sendPrecededByRegister seen t

/-- `true` iff every `statusCheck` event is preceded by a `removeSlot`
event. -/
def statusCheckPrecededByRemove : Bool → List Ev → Bool
  | _, [] => true
  | _, .removeSlot _ :: t => statusCheckPrecededByRemove true t
  | seen, .statusCheck :: t => seen && statusCheckPrecededByRemove seen t
  | seen, _ :: t => statusCheckPrecededByRemove seen t

def sampleFields : List (String × JVal) :=
  [("amount", JVal.num 1000), ("clientMsisdn", JVal.str "0340000001"),
    ("partnerMsisdn", JVal.str "0340000002"),
    ("descriptionTransaction", JVal.str "test"),
    ("referenceID", JVal.str "REF1"), ("name", JVal.str "SHOP")]

def sampleReqBody : JVal := JVal.obj sampleFields

def sampleAuth : Option String := some "Bearer TOK"

example :
    (create_mvola_transaction [] sampleAuth (some sampleReqBody)
      ⟨"X1", "D1", [], [], .resp 202 (JVal.obj [("serverCorrelationId", JVal.str "S1")]),
        .exn, .exn⟩).trace =
    [.sendCreate, .register (JVal.str "X1"), .waitStart, .removeSlot (JVal.str "X1"),
      .statusCheck] := by decide

example :
    (create_mvola_transaction [] sampleAuth (some sampleReqBody)
      ⟨"X1", "D1", [], [], .resp 400 (JVal.obj [("fail", JVal.str "bad")]), .exn, .exn⟩).code
      = 400 := by decide

/-! ## Case-mapping lemmas (ASCII fragment of `str.lower`/`str.upper`) -/

theorem lowerN_isValidChar {n : Nat} (h : n.isValidChar) : (lowerN n).isValidChar := by
  unfold lowerN
  split
  · exact Or.inl (by omega)
  · exact h

theorem upperN_isValidChar {n : Nat} (h : n.isValidChar) : (upperN n).isValidChar := by
  unfold upperN
  split
  · exact Or.inl (by omega)
  · exact h

theorem upperN_lowerN (n : Nat) : upperN (lowerN n) = upperN n := by
  unfold lowerN upperN
  split
  · split
    · split <;> omega
    · split <;> omega
  · rfl

theorem lowerN_upperN (n : Nat) : lowerN (upperN n) = lowerN n := by
  unfold lowerN upperN
  split
  · split
    · split <;> omega
    · split <;> omega
  · rfl

theorem upperN_upperN (n : Nat) : upperN (upperN n) = upperN n := by
  unfold upperN
  split
  · split <;> omega
  · rfl

theorem toNat_ofNat_valid {n : Nat} (h : n.isValidChar) : (Char.ofNat n).toNat = n := by
  simp only [Char.ofNat, dif_pos h, Char.ofNatAux, Char.toNat, UInt32.toNat]
  rfl

theorem charToNat_valid (c : Char) : c.toNat.isValidChar := c.valid

theorem toNat_pyLowerChar (c : Char) : (pyLowerChar c).toNat = lowerN c.toNat :=
  toNat_ofNat_valid (lowerN_isValidChar (charToNat_valid c))

theorem toNat_pyUpperChar (c : Char) : (pyUpperChar c).toNat = upperN c.toNat :=
  toNat_ofNat_valid (upperN_isValidChar (charToNat_valid c))

theorem pyUpperChar_pyLowerChar (c : Char) : pyUpperChar (pyLowerChar c) = pyUpperChar c := by
  unfold pyUpperChar
  rw [toNat_pyLowerChar, upperN_lowerN]

theorem pyLowerChar_pyUpperChar (c : Char) : pyLowerChar (pyUpperChar c) = pyLowerChar c := by
  unfold pyLowerChar
  rw [toNat_pyUpperChar, lowerN_upperN]

theorem pyUpperChar_pyUpperChar (c : Char) : pyUpperChar (pyUpperChar c) = pyUpperChar c := by
  unfold pyUpperChar
  rw [toNat_ofNat_valid (upperN_isValidChar (charToNat_valid c)), upperN_upperN]

theorem data_pyLower (s : String) : (pyLower s).data = s.data.map pyLowerChar := rfl

theorem data_pyUpper (s : String) : (pyUpper s).data = s.data.map pyUpperChar := rfl

theorem pyUpper_pyLower (s : String) : pyUpper (pyLower s) = pyUpper s := by
  unfold pyUpper pyLower
  simp only [List.map_map]
  congr 1
  exact List.map_congr_left (fun c _ => pyUpperChar_pyLowerChar c)

theorem pyLower_pyUpper (s : String) : pyLower (pyUpper s) = pyLower s := by
  unfold pyUpper pyLower
  simp only [List.map_map]
  congr 1
  exact List.map_congr_left (fun c _ => pyLowerChar_pyUpperChar c)

theorem pyUpper_pyUpper (s : String) : pyUpper (pyUpper s) = pyUpper s := by
  unfold pyUpper
  simp only [List.map_map]
  congr 1
  exact List.map_congr_left (fun c _ => pyUpperChar_pyUpperChar c)

theorem pyUpper_eq_of_pyLower_eq {x y : String} (h : pyLower x = pyLower y) :
    pyUpper x = pyUpper y := by
  rw [← pyUpper_pyLower x, ← pyUpper_pyLower y, h]

theorem mapStatus_of_completed {x : String} (h : pyLower x = "completed") :
    mapStatus x = "SUCCESS" := by
  simp [mapStatus, h]

theorem mapStatus_of_failed {x : String} (h : pyLower x = "failed") :
    mapStatus x = "FAILED" := by
  simp [mapStatus, h]

theorem mapStatus_of_pending {x : String} (h : pyLower x = "pending") :
    mapStatus x = "PENDING" := by
  simp [mapStatus, h]

theorem mapStatus_of_other {x : String} (h1 : pyLower x ≠ "completed")
    (h2 : pyLower x ≠ "failed") (h3 : pyLower x ≠ "pending") :
    mapStatus x = pyUpper x := by
  simp [mapStatus, h1, h2, h3]

theorem mapStatus_lower_congr {x y : String} (h : pyLower x = pyLower y) :
    mapStatus x = mapStatus y := by
  unfold mapStatus
  rw [h, pyUpper_eq_of_pyLower_eq h]

theorem mapStatus_idem (x : String) : mapStatus (mapStatus x) = mapStatus x := by
  by_cases h1 : pyLower x = "completed"
  · rw [mapStatus_of_completed h1]
    decide
  by_cases h2 : pyLower x = "failed"
  · rw [mapStatus_of_failed h2]
    decide
  by_cases h3 : pyLower x = "pending"
  · rw [mapStatus_of_pending h3]
    decide
  rw [mapStatus_of_other h1 h2 h3]
  have hl : pyLower (pyUpper x) = pyLower x := pyLower_pyUpper x
  rw [mapStatus_of_other (hl ▸ h1) (hl ▸ h2) (hl ▸ h3), pyUpper_pyUpper]

/-! ## Registry lemmas -/

theorem rlookup_rinsert_self (r : Registry) (k : JVal) (s : Slot) :
    rlookup (rinsert r k s) k = some s := by
  induction r with
  | nil => simp [rinsert, rlookup]
  | cons p t ih =>
    by_cases h : p.1 = k
    · simp [rinsert, h, rlookup]
    · simp [rinsert, h, rlookup, ih]

theorem rlookup_rinsert_ne (r : Registry) (k j : JVal) (s : Slot) (h : j ≠ k) :
    rlookup (rinsert r k s) j = rlookup r j := by
  have hkj : ¬(k = j) := fun hh => h hh.symm
  induction r with
  | nil => simp [rinsert, rlookup, hkj]
  | cons p t ih =>
    by_cases hp : p.1 = k
    · have hpj : ¬(p.1 = j) := by rw [hp]; exact hkj
      simp [rinsert, hp, rlookup, hkj, hpj]
    · simp [rinsert, hp, rlookup, ih]

theorem rlookup_rerase_self (r : Registry) (k : JVal) :
    rlookup (rerase r k) k = none := by
  induction r with
  | nil => rfl
  | cons p t ih =>
    by_cases h : p.1 = k
    · simpa [rerase, h] using ih
    · simp [rerase, h, rlookup, ih]

theorem rlookup_rerase_ne (r : Registry) (k j : JVal) (h : j ≠ k) :
    rlookup (rerase r k) j = rlookup r j := by
  induction r with
  | nil => rfl
  | cons p t ih =>
    by_cases hp : p.1 = k
    · have hpj : ¬(p.1 = j) := by rw [hp]; exact fun hh => h hh.symm
      have hkj : ¬(k = j) := fun hh => h hh.symm
      simp [rerase, hp, rlookup, hpj, hkj, ih]
    · simp [rerase, hp, rlookup, ih]

theorem rlookup_rupdate_self (r : Registry) (k : JVal) (st : String) (d : JVal) :
    rlookup (rupdate r k st d) k =
      (rlookup r k).map (fun _ => (⟨some st, some d, true⟩ : Slot)) := by
  induction r with
  | nil => rfl
  | cons p t ih =>
    by_cases h : p.1 = k
    · simp [rupdate, h, rlookup]
    · simp [rupdate, h, rlookup, ih]

theorem rlookup_rupdate_ne (r : Registry) (k j : JVal) (st : String) (d : JVal)
    (h : j ≠ k) : rlookup (rupdate r k st d) j = rlookup r j := by
  induction r with
  | nil => rfl
  | cons p t ih =>
    by_cases hp : p.1 = k
    · have hpj : ¬(p.1 = j) := by rw [hp]; exact fun hh => h hh.symm
      have hkj : ¬(k = j) := fun hh => h hh.symm
      simp [rupdate, hp, rlookup, hpj, hkj, ih]
    · simp [rupdate, hp, rlookup, ih]

/-! ## Callback-handler characterisation -/

/-- The registry after one callback request: the slot of the extracted id is
overwritten when present; nothing else changes. -/
theorem mvola_callback_registry (r : Registry) (b : Option JVal) :
    (mvola_callback r b).1 = deliverStep r (deliverInfo b) := by
  unfold mvola_callback deliverInfo
  cases b with
  | none => rfl
  | some d =>
    by_cases ht : jTruthy d
    · simp only [ht, Bool.not_true, Bool.false_eq_true, if_false]
      cases hcid : extractCid d with
      | error e => rfl
      | ok cid =>
        cases hst : extractStatus d with
        | error e => rfl
        | ok st =>
          by_cases hh : pyHashable cid
          · simp only [hh, if_true]
            cases hl : rlookup r cid with
            | none => simp [deliverStep, hl]
            | some s => simp [deliverStep, hl]
          · simp only [hh, Bool.false_eq_true, if_false]
            rfl
    · simp [ht, deliverStep]

/-- The HTTP status answered by the callback endpoint depends only on the
request body. -/
theorem mvola_callback_code (r : Registry) (b : Option JVal) :
    (mvola_callback r b).2 = callbackHttpCode b := by
  unfold mvola_callback callbackHttpCode
  cases b with
  | none => rfl
  | some d =>
    by_cases ht : jTruthy d
    · simp only [ht, Bool.not_true, Bool.false_eq_true, if_false]
      cases hcid : extractCid d with
      | error e => rfl
      | ok cid =>
        cases hst : extractStatus d with
        | error e => rfl
        | ok st =>
          by_cases hh : pyHashable cid
          · simp only [hh, if_true]
            cases hl : rlookup r cid <;> rfl
          · simp only [hh, Bool.false_eq_true, if_false]
    · simp [ht]

theorem callbackHttpCode_eq_200_iff (b : Option JVal) :
    callbackHttpCode b = 200 ↔ deliverInfo b ≠ none := by
  unfold callbackHttpCode deliverInfo
  cases b with
  | none => simp
  | some d =>
    by_cases ht : jTruthy d
    · simp only [ht, Bool.not_true, Bool.false_eq_true, if_false]
      cases hcid : extractCid d with
      | error e => simp
      | ok cid =>
        cases hst : extractStatus d with
        | error e => simp
        | ok st =>
          by_cases hh : pyHashable cid
          · simp [hh]
          · simp [hh]
    · simp [ht]

/-- A delivery to a registered id overwrites that slot. -/
theorem mvola_callback_delivers (r : Registry) (b : Option JVal) (k : JVal)
    (st : String) (d : JVal) (hb : deliverInfo b = some (k, st, d))
    (hreg : (rlookup r k).isSome) :
    (mvola_callback r b).1 = rupdate r k st d := by
  obtain ⟨s, hl⟩ := Option.isSome_iff_exists.mp hreg
  rw [mvola_callback_registry, hb]
  simp [deliverStep, hl]

/-- A callback whose extracted id is not registered leaves the registry
unchanged. -/
theorem mvola_callback_noop (r : Registry) (b : Option JVal)
    (h : ∀ k st d, deliverInfo b = some (k, st, d) → rlookup r k = none) :
    (mvola_callback r b).1 = r := by
  rw [mvola_callback_registry]
  cases hb : deliverInfo b with
  | none => rfl
  | some kv =>
    obtain ⟨k, st, d⟩ := kv
    simp [deliverStep, h k st d hb]

theorem cb_step_isSome (r : Registry) (b : Option JVal) (k : JVal)
    (h : (rlookup r k).isSome) : (rlookup (mvola_callback r b).1 k).isSome := by
  rw [mvola_callback_registry]
  cases hb : deliverInfo b with
  | none => exact h
  | some kv =>
    obtain ⟨k', st, d⟩ := kv
    simp only [deliverStep]
    cases hl : rlookup r k' with
    | none => exact h
    | some s =>
      by_cases hk : k = k'
      · subst hk
        rw [rlookup_rupdate_self, hl]
        simp
      · rw [rlookup_rupdate_ne _ _ _ _ _ hk]
        exact h

theorem cb_step_absent (r : Registry) (b : Option JVal) (k : JVal)
    (h : rlookup r k = none) : rlookup (mvola_callback r b).1 k = none := by
  rw [mvola_callback_registry]
  cases hb : deliverInfo b with
  | none => exact h
  | some kv =>
    obtain ⟨k', st, d⟩ := kv
    simp only [deliverStep]
    cases hl : rlookup r k' with
    | none => exact h
    | some s =>
      by_cases hk : k = k'
      · subst hk
        rw [rlookup_rupdate_self, h]
        rfl
      · rw [rlookup_rupdate_ne _ _ _ _ _ hk]
        exact h

theorem cb_step_event (r : Registry) (b : Option JVal) (k : JVal) (s : Slot)
    (h : rlookup r k = some s) (he : s.event = true) :
    ∃ s', rlookup (mvola_callback r b).1 k = some s' ∧ s'.event = true := by
  rw [mvola_callback_registry]
  cases hb : deliverInfo b with
  | none => exact ⟨s, h, he⟩
  | some kv =>
    obtain ⟨k', st, d⟩ := kv
    simp only [deliverStep]
    cases hl : rlookup r k' with
    | none => exact ⟨s, h, he⟩
    | some s0 =>
      by_cases hk : k = k'
      · subst hk
        refine ⟨⟨some st, some d, true⟩, ?_, rfl⟩
        rw [rlookup_rupdate_self, h]
        rfl
      · rw [rlookup_rupdate_ne _ _ _ _ _ hk]
        exact ⟨s, h, he⟩

theorem runCallbacks_append (r : Registry) (l1 l2 : List (Option JVal)) :
    runCallbacks r (l1 ++ l2) = runCallbacks (runCallbacks r l1) l2 := by
  induction l1 generalizing r with
  | nil => rfl
  | cons b t ih =>
    simp only [List.cons_append, runCallbacks]
    exact ih _

theorem runCallbacks_isSome (r : Registry) (cbs : List (Option JVal)) (k : JVal)
    (h : (rlookup r k).isSome) : (rlookup (runCallbacks r cbs) k).isSome := by
  induction cbs generalizing r with
  | nil => exact h
  | cons b t ih => exact ih _ (cb_step_isSome r b k h)

theorem runCallbacks_absent (r : Registry) (cbs : List (Option JVal)) (k : JVal)
    (h : rlookup r k = none) : rlookup (runCallbacks r cbs) k = none := by
  induction cbs generalizing r with
  | nil => exact h
  | cons b t ih => exact ih _ (cb_step_absent r b k h)

theorem runCallbacks_event (r : Registry) (cbs : List (Option JVal)) (k : JVal)
    (s : Slot) (h : rlookup r k = some s) (he : s.event = true) :
    ∃ s', rlookup (runCallbacks r cbs) k = some s' ∧ s'.event = true := by
  induction cbs generalizing r s with
  | nil => exact ⟨s, h, he⟩
  | cons b t ih =>
    obtain ⟨s', h', he'⟩ := cb_step_event r b k s h he
    exact ih _ _ h' he'

/-! ## Claim C4 — the status mapping -/

/-- **C4** (confirmed).  The status mapping of lines 192–197 and 525–530 is
total (a function on all strings), case-insensitive (it depends only on the
lower-cased input), idempotent, and follows the table: any value whose
lower-case form is `completed` or `success` maps to `SUCCESS`, `failed`
maps to `FAILED`, `pending` maps to `PENDING`, and every other value maps
to its upper-cased form. -/
theorem claim4_mapStatus (x y : String) :
    (pyLower x = "completed" → mapStatus x = "SUCCESS") ∧
    (pyLower x = "success" → mapStatus x = "SUCCESS") ∧
    (pyLower x = "failed" → mapStatus x = "FAILED") ∧
    (pyLower x = "pending" → mapStatus x = "PENDING") ∧
    (pyLower x ≠ "completed" → pyLower x ≠ "success" → pyLower x ≠ "failed" →
      pyLower x ≠ "pending" → mapStatus x = pyUpper x) ∧
    (pyLower x = pyLower y → mapStatus x = mapStatus y) ∧
    mapStatus (mapStatus x) = mapStatus x := by
  refine ⟨fun h => mapStatus_of_completed h, fun h => ?_,
    fun h => mapStatus_of_failed h, fun h => mapStatus_of_pending h,
    fun h1 _ h3 h4 => mapStatus_of_other h1 h3 h4,
    fun h => mapStatus_lower_congr h, mapStatus_idem x⟩
  rw [mapStatus_of_other (by rw [h]; decide) (by rw [h]; decide) (by rw [h]; decide),
    ← pyUpper_pyLower, h]
  decide

/-- Witness for C4 at concrete inputs. -/
theorem claim4_witness :
    mapStatus "Completed" = "SUCCESS" ∧ mapStatus "SUCCESS" = "SUCCESS" ∧
      mapStatus "weird" = pyUpper "weird" :=
  ⟨(claim4_mapStatus "Completed" "z").1 (by decide),
   (claim4_mapStatus "SUCCESS" "z").2.1 (by decide),
   (claim4_mapStatus "weird" "z").2.2.2.2.1 (by decide) (by decide) (by decide) (by decide)⟩

/-! ## Claim C1 — first-write-wins does not hold: the code overwrites -/

/-- A well-formed callback body carrying correlation id `cid` and raw status
`st` in the metadata / `transactionStatus` shape the gateway uses. -/
def cbBody (cid st : String) : JVal :=
  JVal.obj [("metadata", JVal.arr [JVal.obj
      [("key", JVal.str "XCorrelationId"), ("value", JVal.str cid)]]),
    ("transactionStatus", JVal.str st)]

/-- **C1** counterexample.  With a slot registered for id `K`, a first
callback (`completed`) stores `SUCCESS`; a second callback for the same
still-registered id (`failed`) overwrites the slot with `FAILED` — the
second `Deliver` *does* have an observable effect, so first-write-wins
fails on the code. -/
theorem claim1_counterexample :
    rlookup ((mvola_callback [(JVal.str "K", freshSlot)]
        (some (cbBody "K" "completed"))).1) (JVal.str "K") =
      some ⟨some "SUCCESS", some (cbBody "K" "completed"), true⟩ ∧
    rlookup ((mvola_callback ((mvola_callback [(JVal.str "K", freshSlot)]
        (some (cbBody "K" "completed"))).1)
        (some (cbBody "K" "failed"))).1) (JVal.str "K") =
      some ⟨some "FAILED", some (cbBody "K" "failed"), true⟩ :=
  ⟨by decide, by decide⟩

/-- **C1** as amended: the callback handler implements *last*-write-wins.
A second delivery to a still-registered id overwrites the stored
status/payload with its own values; the readiness event, already set by the
first delivery, merely remains set (`Event.set` on a set event has no
further effect), and the endpoint still answers 200. -/
theorem claim1_amended (r : Registry) (k : JVal) (b1 b2 : Option JVal)
    (st1 st2 : String) (d1 d2 : JVal)
    (h1 : deliverInfo b1 = some (k, st1, d1))
    (h2 : deliverInfo b2 = some (k, st2, d2))
    (hreg : (rlookup r k).isSome) :
    rlookup ((mvola_callback ((mvola_callback r b1).1) b2).1) k =
      some ⟨some st2, some d2, true⟩ ∧
    (mvola_callback ((mvola_callback r b1).1) b2).2 = 200 := by
  have e1 : (mvola_callback r b1).1 = rupdate r k st1 d1 :=
    mvola_callback_delivers _ _ _ _ _ h1 hreg
  have hreg1 : (rlookup (rupdate r k st1 d1) k).isSome := by
    obtain ⟨s, hl⟩ := Option.isSome_iff_exists.mp hreg
    rw [rlookup_rupdate_self, hl]
    rfl
  have e2 : (mvola_callback (rupdate r k st1 d1) b2).1 =
      rupdate (rupdate r k st1 d1) k st2 d2 :=
    mvola_callback_delivers _ _ _ _ _ h2 hreg1
  constructor
  · rw [e1, e2, rlookup_rupdate_self]
    obtain ⟨s, hl⟩ := Option.isSome_iff_exists.mp hreg1
    rw [hl]
    rfl
  · rw [e1, mvola_callback_code]
    exact (callbackHttpCode_eq_200_iff b2).mpr (by rw [h2]; exact fun hh => Option.noConfusion hh)

/-- Witness for the amended C1 at concrete inputs. -/
theorem claim1_amended_witness :
    rlookup ((mvola_callback ((mvola_callback [(JVal.str "W", freshSlot)]
        (some (cbBody "W" "pending"))).1)
        (some (cbBody "W" "completed"))).1) (JVal.str "W") =
      some ⟨some "SUCCESS", some (cbBody "W" "completed"), true⟩ :=
  (claim1_amended [(JVal.str "W", freshSlot)] (JVal.str "W") _ _ "PENDING" "SUCCESS"
    (cbBody "W" "pending") (cbBody "W" "completed")
    (by decide) (by decide) (by decide)).1

/-! ## Claim C2 — the callback endpoint's response code -/

/-- **C2** counterexample.  An inbound callback request carrying the JSON
body `{}` (falsy) is answered 400, not 200 — so "always 200" fails on the
code. -/
theorem claim2_counterexample :
    (mvola_callback [] (some (JVal.obj []))).2 = 400 := by decide

/-- **C2** as amended.  The response status of the callback endpoint never
depends on whether a slot matched — it is a function of the request body
alone: 200 exactly when a truthy JSON body is processed without raising
(whether or not a slot was found), 400 when the body is missing or falsy,
and 500 when processing raises. -/
theorem claim2_amended (r r' : Registry) (b : Option JVal) :
    (mvola_callback r b).2 = (mvola_callback r' b).2 ∧
    ((mvola_callback r b).2 = 200 ↔ deliverInfo b ≠ none) ∧
    (b = none → (mvola_callback r b).2 = 400) ∧
    (∀ d, b = some d → jTruthy d = false → (mvola_callback r b).2 = 400) := by
  refine ⟨by rw [mvola_callback_code, mvola_callback_code], ?_, ?_, ?_⟩
  · rw [mvola_callback_code]
    exact callbackHttpCode_eq_200_iff b
  · intro hb
    subst hb
    rfl
  · intro d hb ht
    subst hb
    simp [mvola_callback, ht]

/-- Witness for the amended C2: the same body gets the same code with and
without a matching slot, and a well-formed body gets 200 even with no
matching slot. -/
theorem claim2_witness :
    (mvola_callback [] (some (cbBody "A" "completed"))).2 =
      (mvola_callback [(JVal.str "A", freshSlot)] (some (cbBody "A" "completed"))).2 ∧
    (mvola_callback [] (some (cbBody "A" "completed"))).2 = 200 :=
  ⟨(claim2_amended [] [(JVal.str "A", freshSlot)] (some (cbBody "A" "completed"))).1,
   (claim2_amended [] [] (some (cbBody "A" "completed"))).2.1.mpr (by decide)⟩

/-! ## Claim C3 — no lost wake-up -/

/-- **C3** (confirmed).  The wait of line 457 is modelled by the event flag
of the slot after the wait-window callbacks ran (`threading.Event.wait`
returns the flag, which the program never clears, so a flag set strictly
before the deadline is always observed — including by a `Deliver` that
races with the start of the wait).  For every interleaving
`pre ++ b :: post` of concurrently-arriving callbacks in which `b` delivers
to the freshly-registered id `xcid`, the wait returns `delivered = true`;
and when `b` is the only delivery, the slot read afterwards holds exactly
the delivered status and payload. -/
theorem claim3_no_lost_wakeup (r1 : Registry) (xcid : JVal)
    (pre post : List (Option JVal)) (b : Option JVal) (st : String) (d : JVal)
    (hb : deliverInfo b = some (xcid, st, d)) :
    waitDelivered (runCallbacks (rinsert r1 xcid freshSlot) (pre ++ b :: post)) xcid = true ∧
    (post = [] →
      rlookup (runCallbacks (rinsert r1 xcid freshSlot) (pre ++ b :: post)) xcid =
        some ⟨some st, some d, true⟩) := by
  have hreg2 : (rlookup (rinsert r1 xcid freshSlot) xcid).isSome := by
    rw [rlookup_rinsert_self]
    rfl
  have hregp : (rlookup (runCallbacks (rinsert r1 xcid freshSlot) pre) xcid).isSome :=
    runCallbacks_isSome _ _ _ hreg2
  have hstep : (mvola_callback (runCallbacks (rinsert r1 xcid freshSlot) pre) b).1 =
      rupdate (runCallbacks (rinsert r1 xcid freshSlot) pre) xcid st d :=
    mvola_callback_delivers _ _ _ _ _ hb hregp
  have hafter : rlookup (mvola_callback (runCallbacks (rinsert r1 xcid freshSlot) pre) b).1 xcid =
      some ⟨some st, some d, true⟩ := by
    obtain ⟨s, hl⟩ := Option.isSome_iff_exists.mp hregp
    rw [hstep, rlookup_rupdate_self, hl]
    rfl
  have hsplit : runCallbacks (rinsert r1 xcid freshSlot) (pre ++ b :: post) =
      runCallbacks (mvola_callback (runCallbacks (rinsert r1 xcid freshSlot) pre) b).1 post := by
    rw [runCallbacks_append]
    rfl
  constructor
  · obtain ⟨s', hl', he'⟩ := runCallbacks_event _ post xcid _ hafter rfl
    rw [hsplit]
    unfold waitDelivered
    rw [hl']
    exact he'
  · intro hpost
    subst hpost
    rw [hsplit]
    exact hafter

/-- Witness for C3: a single delivery racing with the start of the wait is
observed. -/
theorem claim3_witness :
    waitDelivered (runCallbacks (rinsert [] (JVal.str "C") freshSlot)
      [some (cbBody "C" "completed")]) (JVal.str "C") = true :=
  (claim3_no_lost_wakeup [] (JVal.str "C") [] [] (some (cbBody "C" "completed"))
    "SUCCESS" (cbBody "C" "completed") (by decide)).1

/-! ## Claim C9 — correlation-id extraction supports only the metadata shape -/

theorem jGet_obj (l : List (String × JVal)) (k : String) :
    jGet (JVal.obj l) k = .ok (jLookup l k) := rfl

theorem extractCid_obj_md (fields : List (String × JVal)) (md : JVal)
    (hmd : jLookup fields "metadata" = some md) :
    extractCid (JVal.obj fields) =
      match pyIter md with
      | .error e => .error e
      | .ok l => extractLoop l := by
  unfold extractCid jGetD
  rw [jGet_obj, hmd]

theorem extractCid_obj_nomd (fields : List (String × JVal))
    (hmd : jLookup fields "metadata" = none) :
    extractCid (JVal.obj fields) = .ok (JVal.str "N/A") := by
  unfold extractCid jGetD
  rw [jGet_obj, hmd]
  rfl

theorem extractLoop_hit (mp : List (String × JVal)) (rest : List JVal)
    (hkey : jLookup mp "key" = some (JVal.str "XCorrelationId")) :
    extractLoop (JVal.obj mp :: rest) = jGetD (JVal.obj mp) "value" (JVal.str "N/A") := by
  show (if jLookup mp "key" = some (JVal.str "XCorrelationId")
      then jGetD (JVal.obj mp) "value" (JVal.str "N/A")
      else extractLoop rest) = jGetD (JVal.obj mp) "value" (JVal.str "N/A")
  rw [if_pos hkey]

theorem extractLoop_miss (mp : List (String × JVal)) (rest : List JVal)
    (hkey : jLookup mp "key" ≠ some (JVal.str "XCorrelationId")) :
    extractLoop (JVal.obj mp :: rest) = extractLoop rest := by
  show (if jLookup mp "key" = some (JVal.str "XCorrelationId")
      then jGetD (JVal.obj mp) "value" (JVal.str "N/A")
      else extractLoop rest) = extractLoop rest
  rw [if_neg hkey]

/-- **C9** counterexample.  A payload carrying the correlation id as a flat
field (`XCorrelationId: "ABC"`) is *not* recognised: extraction yields the
default `N/A`, and a slot registered under `ABC` is left untouched (and
unsignalled) by such a callback. -/
theorem claim9_counterexample :
    extractCid (JVal.obj [("XCorrelationId", JVal.str "ABC"),
        ("transactionStatus", JVal.str "completed")]) = .ok (JVal.str "N/A") ∧
    (mvola_callback [(JVal.str "ABC", freshSlot)]
        (some (JVal.obj [("XCorrelationId", JVal.str "ABC"),
          ("transactionStatus", JVal.str "completed")]))).1 =
      [(JVal.str "ABC", freshSlot)] :=
  ⟨by rfl, by decide⟩

/-- **C9** as amended.  Only the nested metadata shape is supported: the
extracted id is the `value` of the first metadata entry whose `key` is
`XCorrelationId` (exactly the carried id), and a payload without a
`metadata` field — in particular one carrying the id only as a flat
field — yields the default `N/A`. -/
theorem claim9_amended (fields : List (String × JVal)) :
    (∀ (pre rest : List JVal) (mp : List (String × JVal)) (v : JVal),
      jLookup fields "metadata" = some (JVal.arr (pre ++ JVal.obj mp :: rest)) →
      (∀ m ∈ pre, ∃ prs, m = JVal.obj prs ∧
        jLookup prs "key" ≠ some (JVal.str "XCorrelationId")) →
      jLookup mp "key" = some (JVal.str "XCorrelationId") →
      jLookup mp "value" = some v →
      extractCid (JVal.obj fields) = .ok v) ∧
    (jLookup fields "metadata" = none →
      extractCid (JVal.obj fields) = .ok (JVal.str "N/A")) := by
  constructor
  · intro pre rest mp v hmd hpre hkey hval
    rw [extractCid_obj_md fields _ hmd]
    show extractLoop (pre ++ JVal.obj mp :: rest) = .ok v
    clear hmd
    induction pre with
    | nil =>
      simp only [List.nil_append]
      rw [extractLoop_hit _ _ hkey]
      unfold jGetD
      rw [jGet_obj, hval]
    | cons m t ih =>
      obtain ⟨prs, hm, hk⟩ := hpre m (by simp)
      subst hm
      simp only [List.cons_append]
      rw [extractLoop_miss _ _ hk]
      exact ih (fun m hm => hpre m (by simp [hm]))
  · intro hmd
    exact extractCid_obj_nomd fields hmd

/-- Witness for the amended C9 at a concrete metadata-shaped payload. -/
theorem claim9_witness :
    extractCid (cbBody "XYZ" "completed") = .ok (JVal.str "XYZ") :=
  (claim9_amended [("metadata", JVal.arr [JVal.obj
      [("key", JVal.str "XCorrelationId"), ("value", JVal.str "XYZ")]]),
    ("transactionStatus", JVal.str "completed")]).1
    [] [] [("key", JVal.str "XCorrelationId"), ("value", JVal.str "XYZ")]
    (JVal.str "XYZ") (by decide) (by simp) (by decide) (by decide)

/-! ## Orchestrator branch lemmas -/

theorem create_ok_unfold (r0 : Registry) (auth : Option String) (body : Option JVal)
    (env : Env) (dataL : List (String × JVal)) (xcid : JVal)
    (hpre : create_pre auth body env = .ok dataL xcid) :
    create_mvola_transaction r0 auth body env =
      ⟨(txnTry (runCallbacks r0 env.cbsDuringCreate) xcid env).code,
       (txnTry (runCallbacks r0 env.cbsDuringCreate) xcid env).body,
       (txnTry (runCallbacks r0 env.cbsDuringCreate) xcid env).registry,
       .sendCreate :: (txnTry (runCallbacks r0 env.cbsDuringCreate) xcid env).trace⟩ := by
  unfold create_mvola_transaction
  rw [hpre]

theorem txnTry_reject (r1 : Registry) (xcid : JVal) (env : Env) (c : Nat) (rb : JVal)
    (hresp : env.createResp = .resp c rb) (hcode : ¬(c = 200 ∨ c = 201 ∨ c = 202)) :
    txnTry r1 xcid env = ⟨c, rb, r1, []⟩ := by
  unfold txnTry
  rw [hresp]
  show (if c = 200 ∨ c = 201 ∨ c = 202 then txnAccepted r1 xcid env c rb
    else ⟨c, rb, r1, []⟩) = ⟨c, rb, r1, []⟩
  rw [if_neg hcode]

theorem txnTry_accept (r1 : Registry) (xcid : JVal) (env : Env) (c : Nat) (rb : JVal)
    (hresp : env.createResp = .resp c rb) (hcode : c = 200 ∨ c = 201 ∨ c = 202) :
    txnTry r1 xcid env = txnAccepted r1 xcid env c rb := by
  unfold txnTry
  rw [hresp]
  show (if c = 200 ∨ c = 201 ∨ c = 202 then txnAccepted r1 xcid env c rb
    else ⟨c, rb, r1, []⟩) = txnAccepted r1 xcid env c rb
  rw [if_pos hcode]

theorem txnAccepted_noScid (r1 : Registry) (xcid : JVal) (env : Env) (c : Nat)
    (l : List (String × JVal)) (hnos : jLookup l "serverCorrelationId" = none) :
    txnAccepted r1 xcid env c (JVal.obj l) = ⟨c, JVal.obj l, r1, []⟩ := by
  unfold txnAccepted
  rw [jGet_obj, hnos]

theorem txnAccepted_scid (r1 : Registry) (xcid : JVal) (env : Env) (c : Nat)
    (rb scid : JVal) (hscid : jGet rb "serverCorrelationId" = .ok (some scid))
    (hsc : jTruthy scid = true) :
    txnAccepted r1 xcid env c rb = txnRegistered r1 xcid scid env := by
  unfold txnAccepted
  rw [hscid]
  show (if !jTruthy scid then (⟨c, rb, r1, []⟩ : TxnResult)
    else txnRegistered r1 xcid scid env) = txnRegistered r1 xcid scid env
  rw [hsc]
  rfl

theorem txnRegistered_polling (r1 : Registry) (xcid scid : JVal) (env : Env)
    (hhash : pyHashable xcid = true)
    (hwait : waitDelivered (runCallbacks (rinsert r1 xcid freshSlot) env.cbsDuringWait)
        xcid = false) :
    txnRegistered r1 xcid scid env =
      txnPolling (runCallbacks (rinsert r1 xcid freshSlot) env.cbsDuringWait) xcid scid env := by
  unfold txnRegistered
  rw [if_pos hhash, hwait]
  rfl

theorem txnRegistered_delivered (r1 : Registry) (xcid scid : JVal) (env : Env)
    (hhash : pyHashable xcid = true)
    (hwait : waitDelivered (runCallbacks (rinsert r1 xcid freshSlot) env.cbsDuringWait)
        xcid = true) :
    txnRegistered r1 xcid scid env =
      txnDelivered (runCallbacks (rinsert r1 xcid freshSlot) env.cbsDuringWait) xcid := by
  unfold txnRegistered
  rw [if_pos hhash, hwait]
  rfl

theorem txnPolling4_falsyStatus (r4 : Registry) (xcid scid : JVal) (env : Env)
    (st : JVal) (hstat : check_transaction_status env.statusHttp = some st)
    (hst : jTruthy st = false) :
    txnPolling4 r4 xcid scid env =
      ⟨202, pendingNoStatusBody scid xcid, r4,
        [.register xcid, .waitStart, .removeSlot xcid, .statusCheck]⟩ := by
  unfold txnPolling4
  rw [hstat]
  show (if !jTruthy st then
      (⟨202, pendingNoStatusBody scid xcid, r4,
        [.register xcid, .waitStart, .removeSlot xcid, .statusCheck]⟩ : TxnResult)
    else txnOref r4 xcid scid env st) =
    ⟨202, pendingNoStatusBody scid xcid, r4,
      [.register xcid, .waitStart, .removeSlot xcid, .statusCheck]⟩
  rw [hst]
  rfl

theorem txnPolling4_truthyStatus (r4 : Registry) (xcid scid : JVal) (env : Env)
    (st : JVal) (hstat : check_transaction_status env.statusHttp = some st)
    (hst : jTruthy st = true) :
    txnPolling4 r4 xcid scid env = txnOref r4 xcid scid env st := by
  unfold txnPolling4
  rw [hstat]
  show (if !jTruthy st then
      (⟨202, pendingNoStatusBody scid xcid, r4,
        [.register xcid, .waitStart, .removeSlot xcid, .statusCheck]⟩ : TxnResult)
    else txnOref r4 xcid scid env st) = txnOref r4 xcid scid env st
  rw [hst]
  rfl

theorem txnPolling_noStatus (r3 : Registry) (xcid scid : JVal) (env : Env)
    (hstat : check_transaction_status env.statusHttp = none) :
    (txnPolling r3 xcid scid env).code = 202 ∧
    (txnPolling r3 xcid scid env).body = pendingNoStatusBody scid xcid := by
  unfold txnPolling txnPolling4
  rw [hstat]
  exact ⟨rfl, rfl⟩

theorem txnPolling_falsyStatus (r3 : Registry) (xcid scid : JVal) (env : Env)
    (st : JVal) (hstat : check_transaction_status env.statusHttp = some st)
    (hst : jTruthy st = false) :
    (txnPolling r3 xcid scid env).code = 202 ∧
    (txnPolling r3 xcid scid env).body = pendingNoStatusBody scid xcid := by
  unfold txnPolling
  rw [txnPolling4_falsyStatus _ _ _ _ _ hstat hst]
  exact ⟨rfl, rfl⟩

theorem txnPolling_status (r3 : Registry) (xcid scid : JVal) (env : Env) (st : JVal)
    (hstat : check_transaction_status env.statusHttp = some st)
    (hst : jTruthy st = true) :
    txnPolling r3 xcid scid env =
      txnOref (match rlookup r3 xcid with
        | some _ => rerase r3 xcid
        | none => r3) xcid scid env st := by
  unfold txnPolling
  rw [txnPolling4_truthyStatus _ _ _ _ _ hstat hst]

theorem txnOref_absent (r4 : Registry) (xcid scid : JVal) (env : Env)
    (sl : List (String × JVal)) (horef : jLookup sl "objectReference" = none) :
    (txnOref r4 xcid scid env (JVal.obj sl)).code = 202 ∧
    (txnOref r4 xcid scid env (JVal.obj sl)).body = pendingNoOrefBody scid xcid := by
  unfold txnOref
  rw [jGet_obj, horef]
  exact ⟨rfl, rfl⟩

theorem txnOref_falsy (r4 : Registry) (xcid scid : JVal) (env : Env)
    (sl : List (String × JVal)) (v : JVal)
    (horef : jLookup sl "objectReference" = some v) (hv : jTruthy v = false) :
    (txnOref r4 xcid scid env (JVal.obj sl)).code = 202 ∧
    (txnOref r4 xcid scid env (JVal.obj sl)).body = pendingNoOrefBody scid xcid := by
  unfold txnOref
  rw [jGet_obj, horef]
  show ((if !jTruthy v then
      (⟨202, pendingNoOrefBody scid xcid, r4,
        [.register xcid, .waitStart, .removeSlot xcid, .statusCheck]⟩ : TxnResult)
    else txnDetails r4 xcid scid env)).code = 202 ∧
    ((if !jTruthy v then
      (⟨202, pendingNoOrefBody scid xcid, r4,
        [.register xcid, .waitStart, .removeSlot xcid, .statusCheck]⟩ : TxnResult)
    else txnDetails r4 xcid scid env)).body = pendingNoOrefBody scid xcid
  rw [hv]
  exact ⟨rfl, rfl⟩

theorem txnOref_present (r4 : Registry) (xcid scid : JVal) (env : Env)
    (sl : List (String × JVal)) (v : JVal)
    (horef : jLookup sl "objectReference" = some v) (hv : jTruthy v = true) :
    txnOref r4 xcid scid env (JVal.obj sl) = txnDetails r4 xcid scid env := by
  unfold txnOref
  rw [jGet_obj, horef]
  show (if !jTruthy v then
      (⟨202, pendingNoOrefBody scid xcid, r4,
        [.register xcid, .waitStart, .removeSlot xcid, .statusCheck]⟩ : TxnResult)
    else txnDetails r4 xcid scid env) = txnDetails r4 xcid scid env
  rw [hv]
  rfl

theorem txnDetails_fail (r4 : Registry) (xcid scid : JVal) (env : Env)
    (hdet : get_transaction_details env.detailsHttp = none) :
    txnDetails r4 xcid scid env =
      ⟨500, errDetailsBody scid xcid, r4,
        [.register xcid, .waitStart, .removeSlot xcid, .statusCheck, .detailFetch]⟩ := by
  unfold txnDetails
  rw [hdet]

theorem txnDetails_falsy (r4 : Registry) (xcid scid : JVal) (env : Env) (dv : JVal)
    (hdet : get_transaction_details env.detailsHttp = some dv)
    (hdv : jTruthy dv = false) :
    txnDetails r4 xcid scid env =
      ⟨500, errDetailsBody scid xcid, r4,
        [.register xcid, .waitStart, .removeSlot xcid, .statusCheck, .detailFetch]⟩ := by
  unfold txnDetails
  rw [hdet]
  show (if !jTruthy dv then
      (⟨500, errDetailsBody scid xcid, r4,
        [.register xcid, .waitStart, .removeSlot xcid, .statusCheck, .detailFetch]⟩ :
          TxnResult)
    else
      match buildPollingResponse xcid scid dv with
      | .ok j =>
        ⟨200, j, r4,
          [.register xcid, .waitStart, .removeSlot xcid, .statusCheck, .detailFetch]⟩
      | .error _ =>
        ⟨500, internalBody, r4,
          [.register xcid, .waitStart, .removeSlot xcid, .statusCheck, .detailFetch]⟩) =
    ⟨500, errDetailsBody scid xcid, r4,
      [.register xcid, .waitStart, .removeSlot xcid, .statusCheck, .detailFetch]⟩
  rw [hdv]
  rfl

theorem txnTry_timeout (r1 : Registry) (xcid : JVal) (env : Env)
    (hresp : env.createResp = .timeout) :
    txnTry r1 xcid env = ⟨504, timeoutBody, r1, []⟩ := by
  unfold txnTry
  rw [hresp]

theorem txnTry_transport (r1 : Registry) (xcid : JVal) (env : Env) (m : String)
    (hresp : env.createResp = .transportErr m) :
    txnTry r1 xcid env = ⟨500, reqFailedBody m, r1, []⟩ := by
  unfold txnTry
  rw [hresp]

/-- A `register` event can be emitted only when the upstream creation
response was of the accepted class. -/
theorem txnTry_register_mem (r1 : Registry) (xcid : JVal) (env : Env) (k : JVal)
    (hmem : Ev.register k ∈ (txnTry r1 xcid env).trace) :
    ∃ c rb, env.createResp = PostOutcome.resp c rb ∧ (c = 200 ∨ c = 201 ∨ c = 202) := by
  cases henv : env.createResp with
  | timeout =>
    rw [txnTry_timeout r1 xcid env henv] at hmem
    exact absurd hmem (by simp)
  | transportErr m =>
    rw [txnTry_transport r1 xcid env m henv] at hmem
    exact absurd hmem (by simp)
  | resp c rb =>
    by_cases hacc : c = 200 ∨ c = 201 ∨ c = 202
    · exact ⟨c, rb, rfl, hacc⟩
    · rw [txnTry_reject r1 xcid env c rb henv hacc] at hmem
      exact absurd hmem (by simp)

/-! ### Trace-order facts -/

theorem regPBS_true (t : List Ev) : registerPrecededBySend true t = true := by
  induction t with
  | nil => rfl
  | cons e t ih => cases e <;> simp [registerPrecededBySend, ih]

theorem txnDelivered_statusOrder (r3 : Registry) (xcid : JVal) :
    statusCheckPrecededByRemove false (txnDelivered r3 xcid).trace = true := by
  unfold txnDelivered
  split
  · split <;> rfl
  · rfl

theorem txnDetails_statusOrder (r4 : Registry) (xcid scid : JVal) (env : Env) :
    statusCheckPrecededByRemove false (txnDetails r4 xcid scid env).trace = true := by
  unfold txnDetails
  split
  · rfl
  · split
    · rfl
    · split <;> rfl

theorem txnOref_statusOrder (r4 : Registry) (xcid scid : JVal) (env : Env) (st : JVal) :
    statusCheckPrecededByRemove false (txnOref r4 xcid scid env st).trace = true := by
  unfold txnOref
  split
  · rfl
  · rfl
  · split
    · rfl
    · exact txnDetails_statusOrder r4 xcid scid env

theorem txnPolling_statusOrder (r3 : Registry) (xcid scid : JVal) (env : Env) :
    statusCheckPrecededByRemove false (txnPolling r3 xcid scid env).trace = true := by
  unfold txnPolling txnPolling4
  split
  · rfl
  · split
    · rfl
    · exact txnOref_statusOrder _ xcid scid env _

theorem txnRegistered_statusOrder (r1 : Registry) (xcid scid : JVal) (env : Env) :
    statusCheckPrecededByRemove false (txnRegistered r1 xcid scid env).trace = true := by
  unfold txnRegistered
  split
  · split
    · exact txnDelivered_statusOrder _ xcid
    · exact txnPolling_statusOrder _ xcid scid env
  · rfl

theorem txnAccepted_statusOrder (r1 : Registry) (xcid : JVal) (env : Env) (code : Nat)
    (body : JVal) :
    statusCheckPrecededByRemove false (txnAccepted r1 xcid env code body).trace = true := by
  unfold txnAccepted
  split
  · rfl
  · rfl
  · split
    · rfl
    · exact txnRegistered_statusOrder r1 xcid _ env

theorem txnTry_statusOrder (r1 : Registry) (xcid : JVal) (env : Env) :
    statusCheckPrecededByRemove false (txnTry r1 xcid env).trace = true := by
  unfold txnTry
  split
  · rfl
  · rfl
  · split
    · exact txnAccepted_statusOrder r1 xcid env _ _
    · rfl

/-! ## Claim C5 — the slot is registered after, not before, the upstream send -/

/-- An environment in which upstream accepts with a server correlation id
and no callback ever arrives. -/
def pollEnv : Env :=
  ⟨"X1", "D1", [], [], .resp 202 (JVal.obj [("serverCorrelationId", JVal.str "S1")]),
    .exn, .exn⟩

/-- **C5** counterexample.  In a successful attempt the orchestrator's trace
begins with `sendCreate` and the `register` event only comes later, so "the
slot is registered before the upstream request is sent (and is registered
while the request is in flight)" fails on the code. -/
theorem claim5_counterexample :
    (create_mvola_transaction [] sampleAuth (some sampleReqBody) pollEnv).trace =
      [Ev.sendCreate, Ev.register (JVal.str "X1"), Ev.waitStart,
        Ev.removeSlot (JVal.str "X1"), Ev.statusCheck] ∧
    sendPrecededByRegister false
      (create_mvola_transaction [] sampleAuth (some sampleReqBody) pollEnv).trace = false :=
  ⟨by decide, by decide⟩

/-- **C5** as amended.  In every attempt the upstream creation request is
sent first: every `register` event in the trace is preceded by a
`sendCreate` event, and a `register` can occur at all only when the
upstream creation response was of the accepted class (200/201/202) — so no
slot is registered while the creation request is in flight. -/
theorem claim5_amended (r0 : Registry) (auth : Option String) (body : Option JVal)
    (env : Env) :
    registerPrecededBySend false (create_mvola_transaction r0 auth body env).trace = true ∧
    (∀ k, Ev.register k ∈ (create_mvola_transaction r0 auth body env).trace →
      ∃ c rb, env.createResp = PostOutcome.resp c rb ∧ (c = 200 ∨ c = 201 ∨ c = 202)) := by
  constructor
  · unfold create_mvola_transaction
    split
    · rfl
    · rfl
    · exact regPBS_true _
  · intro k hmem
    unfold create_mvola_transaction at hmem
    split at hmem
    · exact absurd hmem (by simp)
    · exact absurd hmem (by simp)
    · simp only [List.mem_cons] at hmem
      rcases hmem with hmem | hmem
      · exact absurd hmem (by simp)
      · exact txnTry_register_mem _ _ _ _ hmem

/-- Witness for the amended C5 on a concrete successful attempt. -/
theorem claim5_witness :
    registerPrecededBySend false
      (create_mvola_transaction [] sampleAuth (some sampleReqBody) pollEnv).trace = true ∧
    (∃ c rb, pollEnv.createResp = PostOutcome.resp c rb ∧ (c = 200 ∨ c = 201 ∨ c = 202)) :=
  ⟨(claim5_amended [] sampleAuth (some sampleReqBody) pollEnv).1,
   (claim5_amended [] sampleAuth (some sampleReqBody) pollEnv).2 (JVal.str "X1") (by decide)⟩

/-! ## Claim C7 — non-accepted upstream response is passed through -/

/-- **C7** (confirmed).  When the creation request returns a non-2xx
response, the caller receives the upstream status code and body verbatim,
the trace shows no registration, and a correlation id that had no slot
before the attempt has none after it. -/
theorem claim7_reject_passthrough (r0 : Registry) (auth : Option String)
    (body : Option JVal) (env : Env) (dataL : List (String × JVal)) (xcid : JVal)
    (c : Nat) (rb : JVal)
    (hpre : create_pre auth body env = .ok dataL xcid)
    (hresp : env.createResp = .resp c rb)
    (hcode : c < 200 ∨ 300 ≤ c) :
    create_mvola_transaction r0 auth body env =
      ⟨c, rb, runCallbacks r0 env.cbsDuringCreate, [Ev.sendCreate]⟩ ∧
    (∀ j, Ev.register j ∉ (create_mvola_transaction r0 auth body env).trace) ∧
    (rlookup r0 xcid = none →
      rlookup (create_mvola_transaction r0 auth body env).registry xcid = none) := by
  have hacc : ¬(c = 200 ∨ c = 201 ∨ c = 202) := by omega
  have heq : create_mvola_transaction r0 auth body env =
      ⟨c, rb, runCallbacks r0 env.cbsDuringCreate, [Ev.sendCreate]⟩ := by
    rw [create_ok_unfold _ _ _ _ _ _ hpre, txnTry_reject _ _ _ _ _ hresp hacc]
  refine ⟨heq, ?_, ?_⟩
  · intro j
    rw [heq]
    simp
  · intro habs
    rw [heq]
    exact runCallbacks_absent _ _ _ habs

/-- Witness for C7: upstream rejects with 400 and an error body; the caller
sees exactly that, and nothing was registered. -/
theorem claim7_witness :
    create_mvola_transaction [] sampleAuth (some sampleReqBody)
      ⟨"X1", "D1", [], [], .resp 400 (JVal.obj [("fail", JVal.str "bad")]), .exn, .exn⟩ =
      ⟨400, JVal.obj [("fail", JVal.str "bad")], [], [Ev.sendCreate]⟩ :=
  (claim7_reject_passthrough [] sampleAuth (some sampleReqBody)
    ⟨"X1", "D1", [], [], .resp 400 (JVal.obj [("fail", JVal.str "bad")]), .exn, .exn⟩
    sampleFields (JVal.str "X1") 400 (JVal.obj [("fail", JVal.str "bad")])
    (by decide) (by decide) (by omega)).1

/-! ## Claim C10 — accepted response without a serverCorrelationId -/

/-- **C10** (confirmed).  When upstream accepts (200/201/202) but the body
has no `serverCorrelationId`, the endpoint returns the upstream body and
status verbatim, no slot is registered, and no waiting or polling events
occur. -/
theorem claim10_accept_noScid (r0 : Registry) (auth : Option String)
    (body : Option JVal) (env : Env) (dataL : List (String × JVal)) (xcid : JVal)
    (c : Nat) (l : List (String × JVal))
    (hpre : create_pre auth body env = .ok dataL xcid)
    (hresp : env.createResp = .resp c (JVal.obj l))
    (hacc : c = 200 ∨ c = 201 ∨ c = 202)
    (hnos : jLookup l "serverCorrelationId" = none) :
    create_mvola_transaction r0 auth body env =
      ⟨c, JVal.obj l, runCallbacks r0 env.cbsDuringCreate, [Ev.sendCreate]⟩ ∧
    (∀ j, Ev.register j ∉ (create_mvola_transaction r0 auth body env).trace) ∧
    Ev.waitStart ∉ (create_mvola_transaction r0 auth body env).trace ∧
    Ev.statusCheck ∉ (create_mvola_transaction r0 auth body env).trace ∧
    Ev.detailFetch ∉ (create_mvola_transaction r0 auth body env).trace ∧
    (rlookup r0 xcid = none →
      rlookup (create_mvola_transaction r0 auth body env).registry xcid = none) := by
  have heq : create_mvola_transaction r0 auth body env =
      ⟨c, JVal.obj l, runCallbacks r0 env.cbsDuringCreate, [Ev.sendCreate]⟩ := by
    rw [create_ok_unfold _ _ _ _ _ _ hpre, txnTry_accept _ _ _ _ _ hresp hacc,
      txnAccepted_noScid _ _ _ _ _ hnos]
  refine ⟨heq, ?_, ?_, ?_, ?_, ?_⟩
  · intro j
    rw [heq]
    simp
  · rw [heq]
    simp
  · rw [heq]
    simp
  · rw [heq]
    simp
  · intro habs
    rw [heq]
    exact runCallbacks_absent _ _ _ habs

/-- Witness for C10: upstream answers 200 with a body lacking
`serverCorrelationId`. -/
theorem claim10_witness :
    create_mvola_transaction [] sampleAuth (some sampleReqBody)
      ⟨"X1", "D1", [], [], .resp 200 (JVal.obj [("note", JVal.str "no id")]), .exn, .exn⟩ =
      ⟨200, JVal.obj [("note", JVal.str "no id")], [], [Ev.sendCreate]⟩ :=
  (claim10_accept_noScid [] sampleAuth (some sampleReqBody)
    ⟨"X1", "D1", [], [], .resp 200 (JVal.obj [("note", JVal.str "no id")]), .exn, .exn⟩
    sampleFields (JVal.str "X1") 200 [("note", JVal.str "no id")]
    (by decide) (by decide) (by decide) (by decide)).1

/-! ## Claim C8 — remove before status check; remove/deliver/register algebra -/

/-- **C8** (confirmed).  (i) In every orchestrator run, every `statusCheck`
event is preceded by a `removeSlot` event (the slot is removed before the
status-check request is issued).  (ii) After `Remove(k)`, a delivery
targeting `k` leaves the registry unchanged and still answers 200 — it
never blocks, raises, or errors.  (iii) After `Remove(k)`, a `Register(k)`
installs a fresh unset slot, and (iv) leaves every other id's slot exactly
as it was. -/
theorem claim8_remove_semantics (r0 : Registry) (auth : Option String)
    (body : Option JVal) (env : Env) (r : Registry) (k j : JVal) (b : Option JVal)
    (st : String) (d : JVal) :
    statusCheckPrecededByRemove false
      (create_mvola_transaction r0 auth body env).trace = true ∧
    (deliverInfo b = some (k, st, d) →
      mvola_callback (rerase r k) b = (rerase r k, 200)) ∧
    rlookup (rinsert (rerase r k) k freshSlot) k = some freshSlot ∧
    (j ≠ k → rlookup (rinsert (rerase r k) k freshSlot) j = rlookup r j) := by
  refine ⟨?_, ?_, rlookup_rinsert_self _ _ _, ?_⟩
  · unfold create_mvola_transaction
    split
    · rfl
    · rfl
    · exact txnTry_statusOrder _ _ _
  · intro hb
    have h1 : (mvola_callback (rerase r k) b).1 = rerase r k := by
      apply mvola_callback_noop
      intro k' st' d' hb'
      rw [hb] at hb'
      have hkk : k = k' := congrArg Prod.fst (Option.some.inj hb')
      rw [← hkk]
      exact rlookup_rerase_self r k
    have h2 : (mvola_callback (rerase r k) b).2 = 200 := by
      rw [mvola_callback_code]
      exact (callbackHttpCode_eq_200_iff b).mpr
        (by rw [hb]; exact fun hh => Option.noConfusion hh)
    rw [Prod.ext_iff]
    exact ⟨h1, h2⟩
  · intro hj
    rw [rlookup_rinsert_ne _ _ _ _ hj, rlookup_rerase_ne _ _ _ hj]

/-- Witness for C8 at concrete inputs: a delivery after removal is a no-op
answered 200, and re-registration after removal restores other ids'
slots. -/
theorem claim8_witness :
    mvola_callback (rerase [(JVal.str "R", freshSlot)] (JVal.str "R"))
      (some (cbBody "R" "completed")) =
      (rerase [(JVal.str "R", freshSlot)] (JVal.str "R"), 200) ∧
    rlookup (rinsert (rerase [(JVal.str "R", freshSlot)] (JVal.str "R"))
        (JVal.str "R") freshSlot) (JVal.str "J") =
      rlookup [(JVal.str "R", freshSlot)] (JVal.str "J") :=
  ⟨(claim8_remove_semantics [] none none ⟨"a", "b", [], [], .timeout, .exn, .exn⟩
      [(JVal.str "R", freshSlot)] (JVal.str "R") (JVal.str "J")
      (some (cbBody "R" "completed")) "SUCCESS" (cbBody "R" "completed")).2.1 (by decide),
   (claim8_remove_semantics [] none none ⟨"a", "b", [], [], .timeout, .exn, .exn⟩
      [(JVal.str "R", freshSlot)] (JVal.str "R") (JVal.str "J")
      (some (cbBody "R" "completed")) "SUCCESS" (cbBody "R" "completed")).2.2.2 (by decide)⟩

/-! ## Claim C6 — the polling fallback's failure handling -/

/-- An environment in which upstream accepts, no callback arrives, the
status check succeeds with an `objectReference`, and the detail fetch
fails. -/
def detailFailEnv : Env :=
  ⟨"X1", "D1", [], [], .resp 202 (JVal.obj [("serverCorrelationId", JVal.str "S1")]),
    .resp 200 (JVal.obj [("objectReference", JVal.str "O1")]), .exn⟩

/-- **C6** counterexample.  In the polling fallback, when the detail fetch
fails the attempt resolves as HTTP 500 with `status: ERROR` — not as 202
`PENDING` as claimed. -/
theorem claim6_counterexample :
    (create_mvola_transaction [] sampleAuth (some sampleReqBody) detailFailEnv).code = 500 ∧
    (create_mvola_transaction [] sampleAuth (some sampleReqBody) detailFailEnv).body =
      errDetailsBody (JVal.str "S1") (JVal.str "X1") :=
  ⟨by decide, by decide⟩

/-- The registry as the wait of line 457 completes: callbacks that arrived
during the in-flight creation request, then the registration, then the
callbacks of the wait window. -/
def waitRegistry (r0 : Registry) (xcid : JVal) (env : Env) : Registry :=
  runCallbacks (rinsert (runCallbacks r0 env.cbsDuringCreate) xcid freshSlot)
    env.cbsDuringWait

/-- An attempt that enters the polling fallback reduces to `txnPolling` on
the wait-window registry. -/
theorem create_polling_unfold (r0 : Registry) (auth : Option String)
    (body : Option JVal) (env : Env) (dataL : List (String × JVal)) (xcid : JVal)
    (c : Nat) (rb scid : JVal)
    (hpre : create_pre auth body env = .ok dataL xcid)
    (hresp : env.createResp = .resp c rb)
    (hacc : c = 200 ∨ c = 201 ∨ c = 202)
    (hscid : jGet rb "serverCorrelationId" = .ok (some scid))
    (hsc : jTruthy scid = true)
    (hhash : pyHashable xcid = true)
    (hwait : waitDelivered (waitRegistry r0 xcid env) xcid = false) :
    create_mvola_transaction r0 auth body env =
      ⟨(txnPolling (waitRegistry r0 xcid env) xcid scid env).code,
       (txnPolling (waitRegistry r0 xcid env) xcid scid env).body,
       (txnPolling (waitRegistry r0 xcid env) xcid scid env).registry,
       .sendCreate :: (txnPolling (waitRegistry r0 xcid env) xcid scid env).trace⟩ := by
  rw [create_ok_unfold _ _ _ _ _ _ hpre, txnTry_accept _ _ _ _ _ hresp hacc,
    txnAccepted_scid _ _ _ _ _ _ hscid hsc,
    txnRegistered_polling _ _ _ _ hhash hwait]
  rfl

/-- **C6** as amended.  In the polling fallback (entered only when the wait
returned `delivered = false`): a status check that fails — or whose fetched
body is falsy (`if status_response:` at line 503) — resolves as 202
`PENDING` ("impossible to verify"); a truthy status body whose
`objectReference` is absent or falsy resolves as 202 `PENDING`; but a
truthy `objectReference` whose detail fetch fails — or returns a falsy body
(`if details:` at line 518) — resolves as HTTP 500 with `status: ERROR`,
not as 202. -/
theorem claim6_amended (r0 : Registry) (auth : Option String) (body : Option JVal)
    (env : Env) (dataL : List (String × JVal)) (xcid : JVal) (c : Nat) (rb scid : JVal)
    (hpre : create_pre auth body env = .ok dataL xcid)
    (hresp : env.createResp = .resp c rb)
    (hacc : c = 200 ∨ c = 201 ∨ c = 202)
    (hscid : jGet rb "serverCorrelationId" = .ok (some scid))
    (hsc : jTruthy scid = true)
    (hhash : pyHashable xcid = true)
    (hwait : waitDelivered (waitRegistry r0 xcid env) xcid = false) :
    (check_transaction_status env.statusHttp = none →
      (create_mvola_transaction r0 auth body env).code = 202 ∧
      (create_mvola_transaction r0 auth body env).body = pendingNoStatusBody scid xcid) ∧
    (∀ st, check_transaction_status env.statusHttp = some st → jTruthy st = false →
      (create_mvola_transaction r0 auth body env).code = 202 ∧
      (create_mvola_transaction r0 auth body env).body = pendingNoStatusBody scid xcid) ∧
    (∀ sl, check_transaction_status env.statusHttp = some (JVal.obj sl) →
      jTruthy (JVal.obj sl) = true → jLookup sl "objectReference" = none →
      (create_mvola_transaction r0 auth body env).code = 202 ∧
      (create_mvola_transaction r0 auth body env).body = pendingNoOrefBody scid xcid) ∧
    (∀ sl v, check_transaction_status env.statusHttp = some (JVal.obj sl) →
      jTruthy (JVal.obj sl) = true → jLookup sl "objectReference" = some v →
      jTruthy v = false →
      (create_mvola_transaction r0 auth body env).code = 202 ∧
      (create_mvola_transaction r0 auth body env).body = pendingNoOrefBody scid xcid) ∧
    (∀ sl v, check_transaction_status env.statusHttp = some (JVal.obj sl) →
      jTruthy (JVal.obj sl) = true → jLookup sl "objectReference" = some v →
      jTruthy v = true → get_transaction_details env.detailsHttp = none →
      (create_mvola_transaction r0 auth body env).code = 500 ∧
      (create_mvola_transaction r0 auth body env).body = errDetailsBody scid xcid) ∧
    (∀ sl v dv, check_transaction_status env.statusHttp = some (JVal.obj sl) →
      jTruthy (JVal.obj sl) = true → jLookup sl "objectReference" = some v →
      jTruthy v = true → get_transaction_details env.detailsHttp = some dv →
      jTruthy dv = false →
      (create_mvola_transaction r0 auth body env).code = 500 ∧
      (create_mvola_transaction r0 auth body env).body = errDetailsBody scid xcid) := by
  have heq := create_polling_unfold r0 auth body env dataL xcid c rb scid
    hpre hresp hacc hscid hsc hhash hwait
  refine ⟨?_, ?_, ?_, ?_, ?_, ?_⟩
  · intro hstat
    rw [heq]
    exact txnPolling_noStatus _ _ _ _ hstat
  · intro st hstat hst
    rw [heq]
    exact txnPolling_falsyStatus _ _ _ _ _ hstat hst
  · intro sl hstat htr horef
    rw [heq, txnPolling_status _ _ _ _ _ hstat htr]
    exact txnOref_absent _ _ _ _ _ horef
  · intro sl v hstat htr horef hv
    rw [heq, txnPolling_status _ _ _ _ _ hstat htr]
    exact txnOref_falsy _ _ _ _ _ _ horef hv
  · intro sl v hstat htr horef hv hdet
    rw [heq, txnPolling_status _ _ _ _ _ hstat htr,
      txnOref_present _ _ _ _ _ _ horef hv, txnDetails_fail _ _ _ _ hdet]
    exact ⟨rfl, rfl⟩
  · intro sl v dv hstat htr horef hv hdet hdv
    rw [heq, txnPolling_status _ _ _ _ _ hstat htr,
      txnOref_present _ _ _ _ _ _ horef hv, txnDetails_falsy _ _ _ _ _ hdet hdv]
    exact ⟨rfl, rfl⟩

/-- Witness for the amended C6: a failed status check yields 202
`PENDING`. -/
theorem claim6_witness :
    (create_mvola_transaction [] sampleAuth (some sampleReqBody) pollEnv).code = 202 ∧
    (create_mvola_transaction [] sampleAuth (some sampleReqBody) pollEnv).body =
      pendingNoStatusBody (JVal.str "S1") (JVal.str "X1") :=
  (claim6_amended [] sampleAuth (some sampleReqBody) pollEnv sampleFields
    (JVal.str "X1") 202 (JVal.obj [("serverCorrelationId", JVal.str "S1")])
    (JVal.str "S1") (by decide) (by decide) (by decide) (by rfl) (by decide)
    (by decide) (by decide)).1 (by rfl)
